import Mathlib

/-!
Verification of the standard service-control backend
(src/plugins/servicebackends/standard/standardservicecontrol.cpp).

The controller is modelled as executable functions over explicit
environment records describing the OS responses (lock acquisition,
executable lookup, process spawning, signal delivery, Windows console
calls).  Every function returns, besides its C++ return value, the
last error message set via setError and the ordered trace of external
actions it performed, so that claims about side effects ("no process
spawned", "no signal sent", cleanup ordering, retry counts) become
statements about the trace.
-/

set_option maxHeartbeats 1000000
set_option linter.unusedVariables false

namespace QtService

/-- QLockFile::LockError values (NoError = 0, LockFailedError = 1,
PermissionError = 2, UnknownError = 3). -/
inductive LockError
  | noError
  | lockFailedError
  | permissionError
  | unknownError
deriving DecidableEq, Repr

/-- The integer value of a QLockFile::LockError, as interpolated into
the error string by .arg(lock->error()). -/
def LockError.code : LockError → Nat
  | .noError => 0
  | .lockFailedError => 1
  | .permissionError => 2
  | .unknownError => 3

/-- ServiceControl::Status values used by this backend. -/
inductive Status
  | stopped
  | running
  | unknown
deriving DecidableEq, Repr

/-- External actions the controller can perform, recorded in order. -/
inductive Action
  | tryLock
  | unlock
  | getLockInfo
  | spawn (program : String) (args : List String) (workDir : String)
  | kill (pid : Int) (sig : Nat)
  | freeConsole
  | allocConsole
  | attachConsole (pid : Int)
  | setCtrlHandler (enable : Bool)
  | generateCtrlEvent
  | sleep (ms : Nat)
deriving DecidableEq, Repr

/-- OS response to one QLockFile::tryLock attempt: whether it succeeds,
and the QLockFile error reported when it fails. -/
structure LockEnv where
  tryLockOk : Bool
  lockError : LockError
deriving DecidableEq, Repr

/-- The metadata record embedded in the lock file
(pid, hostname, application name), as returned by getLockInfo. -/
structure LockInfo where
  pid : Int
  hostname : String
  appname : String
deriving DecidableEq, Repr

/-- Result of status(): the reported Status, the error message set by
the call (none when setError was not called), and the action trace. -/
structure StatusResult where
  st : Status
  err : Option String
  acts : List Action
deriving DecidableEq, Repr

/-- Result of a Bool-returning control call (start/stop). -/
structure BoolResult where
  ok : Bool
  err : Option String
  acts : List Action
deriving DecidableEq, Repr

/-- tr("Failed to access lockfile with error: %1").arg(lock->error()) -/
def errFailedToAccessLockfile (e : LockError) : String :=
  "Failed to access lockfile with error: " ++ toString e.code

/-- StandardServiceControl::status — try the status lock without
blocking; success means no holder (Stopped, unlock at once), failure
with LockFailedError means another process holds it (Running), any
other failure is Unknown with an error message. -/
def status (env : LockEnv) : StatusResult :=
  if env.tryLockOk then
    { st := .stopped, err := none, acts := [.tryLock, .unlock] }
  else if env.lockError = .lockFailedError then
    { st := .running, err := none, acts := [.tryLock] }
  else
    { st := .unknown
      err := some (errFailedToAccessLockfile env.lockError)
      acts := [.tryLock] }

/-- StandardServiceControl::backend — "debug" in debug mode,
"standard" otherwise. -/
def backend (debugMode : Bool) : String :=
  if debugMode then "debug" else "standard"

/-- StandardServiceControl::serviceExists —
!QStandardPaths::findExecutable(serviceId()).isEmpty(); the argument
is the lookup result, empty string meaning nothing found. -/
def serviceExists (bin : String) : Bool :=
  !bin.isEmpty

/-- StandardServiceControl::getPid — read the lock metadata (no lock
acquisition); the pid on success, -1 when getLockInfo fails (lock free
or metadata unreadable).  Second component is the action trace. -/
def getPid (info : Option LockInfo) : Int × List Action :=
  match info with
  | some i => (i.pid, [.getLockInfo])
  | none => (-1, [.getLockInfo])

/-- QVariant results of callGenericCommand: empty default, or a pid. -/
inductive QVariant
  | null
  | int (v : Int)
deriving DecidableEq, Repr

/-- StandardServiceControl::callGenericCommand — args are Q_UNUSED;
"getPid" returns getPid(), any other kind returns an empty QVariant. -/
def callGenericCommand (info : Option LockInfo) (kind : String)
    (args : List QVariant) : QVariant :=
  if kind == "getPid" then .int (getPid info).1 else .null

/-- QDir::rootPath() — the filesystem root. -/
def rootPath : String := "/"

/-- tr("Unabled to find executable for service with id \"%1\"").arg(serviceId()) -/
def errUnableToFind (serviceId : String) : String :=
  "Unabled to find executable for service with id \x22" ++ serviceId ++ "\x22"

/-- tr("Failed to start service process with error: %1").arg(errorString) -/
def errFailedToStart (e : String) : String :=
  "Failed to start service process with error: " ++ e

/-- OS environment for one start() call: the current lock state, the
QStandardPaths::findExecutable result (empty = not found), and whether
the spawn attempt (waitForStarted / startDetached) succeeds. -/
structure StartEnv where
  lockEnv : LockEnv
  bin : String
  spawnOk : Bool
  spawnErr : String
deriving DecidableEq, Repr

/-- StandardServiceControl::start — idempotent on Running; resolves the
executable, fails with an error message when it is missing; otherwise
spawns the process with arguments ["--backend", backend()] and working
directory QDir::rootPath(), in debug mode as an attached child with
forwarded channels and otherwise detached (same program, arguments and
working directory via prepareProc either way). -/
def start (debugMode : Bool) (serviceId : String) (env : StartEnv) :
    BoolResult :=
  let s := status env.lockEnv
  if s.st = .running then
    { ok := true, err := s.err, acts := s.acts }
  else if env.bin.isEmpty then
    { ok := false, err := some (errUnableToFind serviceId), acts := s.acts }
  else
    let spawnAct := Action.spawn env.bin ["--backend", backend debugMode] rootPath
    if env.spawnOk then
      { ok := true, err := s.err, acts := s.acts ++ [spawnAct] }
    else
      { ok := false
        err := some (errFailedToStart env.spawnErr)
        acts := s.acts ++ [spawnAct] }

/-- tr("Failed to get pid of running service") -/
def errFailedGetPid : String := "Failed to get pid of running service"

/-- Signal number delivered by the POSIX stop path. -/
def SIGTERM : Nat := 15

/-- OS environment for one POSIX stop() call. -/
structure PosixStopEnv where
  lockEnv : LockEnv
  lockInfo : Option LockInfo
  killOk : Bool
deriving DecidableEq, Repr

/-- StandardServiceControl::stop, POSIX branch — idempotent on
Stopped; resolves the pid from the lock metadata, failing when it is
-1; then returns kill(pid, SIGTERM) == 0 with no waiting and no
re-check of the status. -/
def posixStop (env : PosixStopEnv) : BoolResult :=
  let s := status env.lockEnv
  if s.st = .stopped then
    { ok := true, err := s.err, acts := s.acts }
  else
    let p := getPid env.lockInfo
    let acts0 := s.acts ++ p.2
    if p.1 = -1 then
      { ok := false, err := some errFailedGetPid, acts := acts0 }
    else
      { ok := env.killOk, err := s.err, acts := acts0 ++ [.kill p.1 SIGTERM] }

/-- tr("Failed to send stop signal with error: %1").arg(...) -/
def errSendStop (e : String) : String :=
  "Failed to send stop signal with error: " ++ e

/-- tr("Service did not stop yet") -/
def errDidNotStop : String := "Service did not stop yet"

/-- tr("Failed to disable local console handler with error: %1").arg(...) -/
def errDisableHandler (e : String) : String :=
  "Failed to disable local console handler with error: " ++ e

/-- tr("Failed to attach to service console with error: %1").arg(...) -/
def errAttachConsole (e : String) : String :=
  "Failed to attach to service console with error: " ++ e

/-- OS environment for one Windows stop() call: lock state for the
initial status check, lock metadata, the results of FreeConsole,
AttachConsole and SetConsoleCtrlHandler, the per-iteration result of
GenerateConsoleCtrlEvent, and the lock state observed by the status()
call inside iteration i of the retry loop. -/
structure WinStopEnv where
  lockEnv : LockEnv
  lockInfo : Option LockInfo
  hadConsole : Bool
  attachOk : Bool
  attachErr : String
  handlerOk : Bool
  handlerErr : String
  genOk : Nat → Bool
  genErr : Nat → String
  loopLock : Nat → LockEnv

/-- The retry loop of the Windows stop path: iteration index, remaining
iterations (started at 10), last error set so far, trace accumulator.
A successful GenerateConsoleCtrlEvent re-checks status() and sleeps
500 ms while it still reports Running, otherwise exits with ok = true;
a failed event sets the captured OS error and continues with the next
iteration. -/
def winLoop (env : WinStopEnv) :
    Nat → Nat → Option String → List Action →
    Bool × Option String × List Action
  | _, 0, err, acc => (false, err, acc)
  | i, n + 1, err, acc =>
    if env.genOk i then
      let s := status (env.loopLock i)
      let err2 := if s.err.isSome then s.err else err
      let acc2 := (acc ++ [Action.generateCtrlEvent]) ++ s.acts
      if s.st = .running then
        winLoop env (i + 1) n err2 (acc2 ++ [.sleep 500])
      else
        (true, err2, acc2)
    else
      winLoop env (i + 1) n (some (errSendStop (env.genErr i)))
        (acc ++ [Action.generateCtrlEvent])

/-- Scope guard _sg0: AllocConsole on exit when FreeConsole had
detached a console. -/
def sg0Acts (hadConsole : Bool) : List Action :=
  if hadConsole then [Action.allocConsole] else []

/-- StandardServiceControl::stop, Windows branch — idempotent on
Stopped; resolves the pid; FreeConsole, AttachConsole(pid),
SetConsoleCtrlHandler(nullptr, true), then the 10-iteration retry
loop; failures of AttachConsole or SetConsoleCtrlHandler set a
captured OS error and fall through to the scope-guard cleanup
(restore handler, detach console, restore own console, in that
order); when the loop ends without success the error is
"Service did not stop yet". -/
def winStop (env : WinStopEnv) : BoolResult :=
  let s := status env.lockEnv
  if s.st = .stopped then
    { ok := true, err := s.err, acts := s.acts }
  else
    let p := getPid env.lockInfo
    let acts0 := s.acts ++ p.2
    if p.1 = -1 then
      { ok := false, err := some errFailedGetPid, acts := acts0 }
    else
      let acts1 := acts0 ++ [Action.freeConsole]
      if env.attachOk then
        let acts2 := acts1 ++ [Action.attachConsole p.1]
        if env.handlerOk then
          let acts3 := acts2 ++ [Action.setCtrlHandler true]
          let r := winLoop env 0 10 s.err acts3
          let finalErr := if r.1 then r.2.1 else some errDidNotStop
          { ok := r.1
            err := finalErr
            acts := ((r.2.2 ++ [Action.setCtrlHandler false]) ++
              [Action.freeConsole]) ++ sg0Acts env.hadConsole }
        else
          { ok := false
            err := some (errDisableHandler env.handlerErr)
            acts := (acts2 ++ [Action.setCtrlHandler true]) ++
              ([Action.freeConsole] ++ sg0Acts env.hadConsole) }
      else
        { ok := false
          err := some (errAttachConsole env.attachErr)
          acts := (acts1 ++ [Action.attachConsole p.1]) ++
            sg0Acts env.hadConsole }

/-- Maximum value of a C int, as passed to setStaleLockTime. -/
def intMax : Int := 2147483647

/-- Configuration of the QLockFile built by statusLock. -/
structure LockFileConfig where
  filePath : String
  staleLockTime : Int
deriving DecidableEq, Repr

/-- StandardServiceControl::statusLock — a QLockFile on
runtimeDir/qstandard.lock with setStaleLockTime(INT_MAX)
("disable stale locks"). -/
def statusLock (runtimeDir : String) : LockFileConfig :=
  { filePath := runtimeDir ++ "/qstandard.lock", staleLockTime := intMax }

/-- Is this action a GenerateConsoleCtrlEvent attempt? -/
def isGen : Action → Bool
  | .generateCtrlEvent => true
  | _ => false

/-- Number of GenerateConsoleCtrlEvent attempts in a trace. -/
def countGen (l : List Action) : Nat :=
  l.countP isGen

/-- The trace accumulated by the Windows stop path before its retry
loop starts: status check, metadata read, console detach, console
attach, handler bypass. -/
def loopAcc (env : WinStopEnv) (pid : Int) : List Action :=
  (status env.lockEnv).acts ++
    [.getLockInfo, .freeConsole, .attachConsole pid, .setCtrlHandler true]

/-- A concrete Windows environment whose initial status is Stopped
(free lock), used to witness idempotent stop. -/
def winEnvStoppedC2 : WinStopEnv :=
  { lockEnv := ⟨true, .noError⟩
    lockInfo := none
    hadConsole := false
    attachOk := false
    attachErr := ""
    handlerOk := false
    handlerErr := ""
    genOk := fun _ => false
    genErr := fun _ => ""
    loopLock := fun _ => ⟨true, .noError⟩ }

/-- A concrete Windows environment in which the service runs, console
attach and handler setup succeed, but GenerateConsoleCtrlEvent fails
on every iteration. -/
def winEnvGenFail : WinStopEnv :=
  { lockEnv := ⟨false, .lockFailedError⟩
    lockInfo := some ⟨42, "host", "app"⟩
    hadConsole := true
    attachOk := true
    attachErr := ""
    handlerOk := true
    handlerErr := ""
    genOk := fun _ => false
    genErr := fun _ => "event error"
    loopLock := fun _ => ⟨false, .lockFailedError⟩ }

/-- A concrete Windows environment in which AttachConsole fails. -/
def winEnvAttachFail : WinStopEnv :=
  { lockEnv := ⟨false, .lockFailedError⟩
    lockInfo := some ⟨42, "host", "app"⟩
    hadConsole := true
    attachOk := false
    attachErr := "access denied"
    handlerOk := true
    handlerErr := ""
    genOk := fun _ => true
    genErr := fun _ => ""
    loopLock := fun _ => ⟨false, .lockFailedError⟩ }

/-- A concrete Windows environment in which the first interrupt event
succeeds and the service is then observed stopped. -/
def winEnvEarlyStop : WinStopEnv :=
  { lockEnv := ⟨false, .lockFailedError⟩
    lockInfo := some ⟨7, "h", "a"⟩
    hadConsole := false
    attachOk := true
    attachErr := ""
    handlerOk := true
    handlerErr := ""
    genOk := fun _ => true
    genErr := fun _ => ""
    loopLock := fun _ => ⟨true, .noError⟩ }

/-- String append is associative (used to split literal messages). -/
theorem strAppend_assoc (a b c : String) : a ++ b ++ c = a ++ (b ++ c) := by
  rcases a with ⟨la⟩
  rcases b with ⟨lb⟩
  rcases c with ⟨lc⟩
  show String.mk ((la ++ lb) ++ lc) = String.mk (la ++ (lb ++ lc))
  rw [List.append_assoc]

/-- C1: status() on the standard backend returns Stopped with an
immediate unlock when the non-blocking tryLock succeeds, Running when
it fails with LockFailedError (another process holds the lock), and
Unknown with a descriptive error message for any other failure. -/
theorem status_cases (env : LockEnv) :
    (env.tryLockOk = true →
      status env = { st := .stopped, err := none, acts := [.tryLock, .unlock] }) ∧
    (env.tryLockOk = false → env.lockError = .lockFailedError →
      status env = { st := .running, err := none, acts := [.tryLock] }) ∧
    (env.tryLockOk = false → env.lockError ≠ .lockFailedError →
      status env =
        { st := .unknown
          err := some (errFailedToAccessLockfile env.lockError)
          acts := [.tryLock] }) := by
  refine ⟨fun h => ?_, fun h he => ?_, fun h he => ?_⟩
  · simp [status, h]
  · simp [status, h, he]
  · simp [status, h, he]

/-- C1 witness: the three branches at concrete lock environments. -/
theorem status_cases_witness :
    status ⟨true, .noError⟩ =
      { st := .stopped, err := none, acts := [.tryLock, .unlock] } ∧
    status ⟨false, .lockFailedError⟩ =
      { st := .running, err := none, acts := [.tryLock] } ∧
    status ⟨false, .permissionError⟩ =
      { st := .unknown
        err := some (errFailedToAccessLockfile .permissionError)
        acts := [.tryLock] } :=
  ⟨(status_cases ⟨true, .noError⟩).1 rfl,
   (status_cases ⟨false, .lockFailedError⟩).2.1 rfl rfl,
   (status_cases ⟨false, .permissionError⟩).2.2 rfl (by decide)⟩

/-- C6: statusLock() disables staleness detection: the stale-lock time
is set to the maximum representable int, so no representable age
threshold exceeds it, and the lock file lives at
runtimeDir/qstandard.lock. -/
theorem statusLock_stale_disabled (runtimeDir : String) :
    (statusLock runtimeDir).staleLockTime = intMax ∧
    (∀ t : Int, -2147483648 ≤ t → t ≤ 2147483647 →
      t ≤ (statusLock runtimeDir).staleLockTime) ∧
    (statusLock runtimeDir).filePath = runtimeDir ++ "/qstandard.lock" := by
  refine ⟨rfl, fun t h1 h2 => ?_, rfl⟩
  simpa [statusLock, intMax] using h2

/-- C6 witness: the configuration at a concrete runtime directory. -/
theorem statusLock_stale_disabled_witness :
    (statusLock "/run/user").staleLockTime = intMax ∧
    (2147483646 : Int) ≤ (statusLock "/run/user").staleLockTime :=
  ⟨(statusLock_stale_disabled "/run/user").1,
   (statusLock_stale_disabled "/run/user").2.1 2147483646 (by decide) (by decide)⟩

/-- C9: getPid() reads the lock metadata without acquiring the lock
(trace is exactly one getLockInfo, no tryLock), returning the recorded
pid, and -1 whenever getLockInfo fails (lock free or unreadable). -/
theorem getPid_spec (info : Option LockInfo) :
    (∀ i, info = some i → (getPid info).1 = i.pid) ∧
    (info = none → (getPid info).1 = -1) ∧
    (getPid info).2 = [.getLockInfo] := by
  refine ⟨fun i h => ?_, fun h => ?_, ?_⟩
  · subst h; rfl
  · subst h; rfl
  · cases info <;> rfl

/-- C9 witness: getPid at a held lock and at a free lock. -/
theorem getPid_spec_witness :
    (getPid (some ⟨437, "host", "app"⟩)).1 = 437 ∧
    (getPid (none : Option LockInfo)).1 = -1 ∧
    (getPid (none : Option LockInfo)).2 = [.getLockInfo] :=
  ⟨(getPid_spec (some ⟨437, "host", "app"⟩)).1 ⟨437, "host", "app"⟩ rfl,
   (getPid_spec none).2.1 rfl,
   (getPid_spec none).2.2⟩

/-- C10: callGenericCommand ignores its argument list entirely — any
two argument lists give the same result — and the result depends only
on the kind: "getPid" returns the tracked pid, anything else returns
an empty QVariant. -/
theorem callGenericCommand_ignores_args (info : Option LockInfo)
    (kind : String) (args1 args2 : List QVariant) :
    callGenericCommand info kind args1 = callGenericCommand info kind args2 ∧
    (kind = "getPid" →
      callGenericCommand info kind args1 = .int (getPid info).1) ∧
    (kind ≠ "getPid" → callGenericCommand info kind args1 = .null) := by
  refine ⟨rfl, fun h => ?_, fun h => ?_⟩
  · simp [callGenericCommand, h]
  · simp [callGenericCommand, h]

/-- C10 witness: concrete kinds and argument lists. -/
theorem callGenericCommand_ignores_args_witness :
    callGenericCommand (some ⟨5, "h", "a"⟩) "getPid" [] = QVariant.int 5 ∧
    callGenericCommand (some ⟨5, "h", "a"⟩) "other" [.null, .int 9] =
      QVariant.null :=
  ⟨(callGenericCommand_ignores_args (some ⟨5, "h", "a"⟩) "getPid" [] []).2.1 rfl,
   (callGenericCommand_ignores_args (some ⟨5, "h", "a"⟩) "other"
      [.null, .int 9] []).2.2 (by decide)⟩

/-- A Running status report pins down the whole status() result. -/
theorem status_running_eq (env : LockEnv) (h : (status env).st = .running) :
    status env = { st := .running, err := none, acts := [.tryLock] } := by
  cases ht : env.tryLockOk
  · cases he : env.lockError <;> simp_all [status]
  · simp_all [status]

/-- A Stopped status report pins down the whole status() result. -/
theorem status_stopped_eq (env : LockEnv) (h : (status env).st = .stopped) :
    status env = { st := .stopped, err := none, acts := [.tryLock, .unlock] } := by
  cases ht : env.tryLockOk
  · cases he : env.lockError <;> simp_all [status]
  · simp_all [status]

/-- status() only ever tries the lock (and possibly unlocks). -/
theorem status_acts_cases (env : LockEnv) :
    (status env).acts = [.tryLock, .unlock] ∨ (status env).acts = [.tryLock] := by
  by_cases h : env.tryLockOk
  · simp [status, h]
  · by_cases h2 : env.lockError = .lockFailedError <;> simp [status, h, h2]

/-- C2: start() on a Running status returns true with no spawn (the
trace is the status check alone), and stop() on a Stopped status —
on both the POSIX and the Windows path — returns true with no kill,
console or event action (the trace is the status check alone). -/
theorem start_stop_idempotent (debugMode : Bool) (serviceId : String)
    (senv : StartEnv) (penv : PosixStopEnv) (wenv : WinStopEnv)
    (hs : (status senv.lockEnv).st = .running)
    (hp : (status penv.lockEnv).st = .stopped)
    (hw : (status wenv.lockEnv).st = .stopped) :
    (start debugMode serviceId senv).ok = true ∧
    (start debugMode serviceId senv).acts = [.tryLock] ∧
    (posixStop penv).ok = true ∧
    (posixStop penv).acts = [.tryLock, .unlock] ∧
    (winStop wenv).ok = true ∧
    (winStop wenv).acts = [.tryLock, .unlock] := by
  have h1 := status_running_eq _ hs
  have h2 := status_stopped_eq _ hp
  have h3 := status_stopped_eq _ hw
  refine ⟨?_, ?_, ?_, ?_, ?_, ?_⟩ <;>
    simp [start, posixStop, winStop, h1, h2, h3]

/-- C2 witness: a held lock makes start() succeed without spawning,
a free lock makes both stop() paths succeed without signalling. -/
theorem start_stop_idempotent_witness :
    (start false "svc" ⟨⟨false, .lockFailedError⟩, "", false, ""⟩).ok = true ∧
    (posixStop ⟨⟨true, .noError⟩, none, false⟩).ok = true ∧
    (posixStop ⟨⟨true, .noError⟩, none, false⟩).acts = [.tryLock, .unlock] ∧
    (winStop winEnvStoppedC2).ok = true := by
  have h := start_stop_idempotent false "svc"
    ⟨⟨false, .lockFailedError⟩, "", false, ""⟩
    ⟨⟨true, .noError⟩, none, false⟩ winEnvStoppedC2
    (by decide) (by decide) rfl
  exact ⟨h.1, h.2.2.1, h.2.2.2.1, h.2.2.2.2.1⟩

/-- C5: on the POSIX stop path, with the service not reported Stopped
and the lock metadata yielding a pid other than -1, stop() performs
exactly one kill(pid, SIGTERM) after the status check and metadata
read, returns true exactly when the kill call succeeded, never sleeps,
and sets no error. -/
theorem posixStop_signal (env : PosixStopEnv) (i : LockInfo)
    (hst : (status env.lockEnv).st ≠ .stopped)
    (hinfo : env.lockInfo = some i) (hpid : i.pid ≠ -1) :
    (posixStop env).ok = env.killOk ∧
    (posixStop env).acts =
      (status env.lockEnv).acts ++ [.getLockInfo, .kill i.pid SIGTERM] ∧
    (∀ m, Action.sleep m ∉ (posixStop env).acts) ∧
    (posixStop env).err = (status env.lockEnv).err := by
  have hacts : (posixStop env).acts =
      (status env.lockEnv).acts ++ [.getLockInfo, .kill i.pid SIGTERM] := by
    simp [posixStop, hst, hinfo, getPid, hpid]
  refine ⟨?_, hacts, ?_, ?_⟩
  · simp [posixStop, hst, hinfo, getPid, hpid]
  · intro m hm
    rw [hacts] at hm
    rcases status_acts_cases env.lockEnv with h | h <;> rw [h] at hm <;>
      simp at hm
  · simp [posixStop, hst, hinfo, getPid, hpid]

/-- C5 witness: a held lock with pid 905, kill succeeding. -/
theorem posixStop_signal_witness :
    (posixStop ⟨⟨false, .lockFailedError⟩, some ⟨905, "h", "a"⟩, true⟩).ok = true ∧
    (posixStop ⟨⟨false, .lockFailedError⟩, some ⟨905, "h", "a"⟩, true⟩).acts =
      [.tryLock, .getLockInfo, .kill 905 SIGTERM] := by
  have h := posixStop_signal ⟨⟨false, .lockFailedError⟩, some ⟨905, "h", "a"⟩, true⟩
    ⟨905, "h", "a"⟩ (by decide) rfl (by decide)
  exact ⟨h.1, by rw [h.2.1]; rfl⟩

/-- C7: whenever the executable lookup succeeds (and the service is
not already reported Running), start() performs exactly one spawn,
with arguments ["--backend", backend()] — "debug" when the debug flag
is set, "standard" otherwise — and working directory the filesystem
root, for either debug-mode setting and either spawn outcome. -/
theorem start_spawn_args (debugMode : Bool) (serviceId : String) (env : StartEnv)
    (hnr : (status env.lockEnv).st ≠ .running)
    (hbin : env.bin.isEmpty = false) :
    (start debugMode serviceId env).acts =
      (status env.lockEnv).acts ++
        [.spawn env.bin ["--backend", if debugMode then "debug" else "standard"]
          "/"] := by
  cases h : env.spawnOk <;>
    simp [start, hnr, hbin, h, backend, rootPath]

/-- C7 witness: a found executable spawned with the standard and the
debug backend identifier. -/
theorem start_spawn_args_witness :
    (start false "svc" ⟨⟨true, .noError⟩, "/usr/bin/svc", true, ""⟩).acts =
      [.tryLock, .unlock,
        .spawn "/usr/bin/svc" ["--backend", "standard"] "/"] ∧
    (start true "svc" ⟨⟨true, .noError⟩, "/usr/bin/svc", true, ""⟩).acts =
      [.tryLock, .unlock,
        .spawn "/usr/bin/svc" ["--backend", "debug"] "/"] :=
  ⟨start_spawn_args false "svc" ⟨⟨true, .noError⟩, "/usr/bin/svc", true, ""⟩
      (by decide) rfl,
   start_spawn_args true "svc" ⟨⟨true, .noError⟩, "/usr/bin/svc", true, ""⟩
      (by decide) rfl⟩

/-- C8: when the executable lookup comes back empty (and the service
is not already reported Running), start() returns false with an error
message beginning "Unabled to find executable", spawns nothing, and
serviceExists() is false for that lookup result. -/
theorem start_no_executable (debugMode : Bool) (serviceId : String)
    (env : StartEnv)
    (hnr : (status env.lockEnv).st ≠ .running)
    (hbin : env.bin.isEmpty = true) :
    (start debugMode serviceId env).ok = false ∧
    (start debugMode serviceId env).err = some (errUnableToFind serviceId) ∧
    (∃ s, errUnableToFind serviceId = "Unabled to find executable" ++ s) ∧
    serviceExists env.bin = false ∧
    (∀ prog args wd, Action.spawn prog args wd ∉
      (start debugMode serviceId env).acts) := by
  have hacts : (start debugMode serviceId env).acts =
      (status env.lockEnv).acts := by
    simp [start, hnr, hbin]
  refine ⟨?_, ?_, ?_, ?_, ?_⟩
  · simp [start, hnr, hbin]
  · simp [start, hnr, hbin]
  · have hsplit : "Unabled to find executable for service with id \x22" =
        "Unabled to find executable" ++ " for service with id \x22" := by decide
    refine ⟨" for service with id \x22" ++ serviceId ++ "\x22", ?_⟩
    show "Unabled to find executable for service with id \x22" ++ serviceId ++
      "\x22" = _
    rw [hsplit, strAppend_assoc, strAppend_assoc, strAppend_assoc]
  · simp [serviceExists, hbin]
  · intro prog args wd hm
    rw [hacts] at hm
    rcases status_acts_cases env.lockEnv with h | h <;> rw [h] at hm <;>
      simp at hm

/-- C8 witness: no executable for "svc" with a free lock. -/
theorem start_no_executable_witness :
    (start false "svc" ⟨⟨true, .noError⟩, "", true, ""⟩).ok = false ∧
    (start false "svc" ⟨⟨true, .noError⟩, "", true, ""⟩).err =
      some (errUnableToFind "svc") ∧
    serviceExists "" = false := by
  have h := start_no_executable false "svc" ⟨⟨true, .noError⟩, "", true, ""⟩
    (by decide) rfl
  exact ⟨h.1, h.2.1, h.2.2.2.1⟩

/-- countGen distributes over append. -/
theorem countGen_append (a b : List Action) :
    countGen (a ++ b) = countGen a + countGen b := by
  simp [countGen, List.countP_append]

/-- status() emits no GenerateConsoleCtrlEvent. -/
theorem countGen_status (env : LockEnv) : countGen (status env).acts = 0 := by
  rcases status_acts_cases env with h | h <;> rw [h] <;> rfl

/-- A lone event in the trace counts once. -/
theorem countGen_gen : countGen [Action.generateCtrlEvent] = 1 := rfl

/-- A sleep contributes no event count. -/
theorem countGen_sleep (m : Nat) : countGen [Action.sleep m] = 0 := rfl

/-- status() never sleeps. -/
theorem sleep_not_in_status (env : LockEnv) (m : Nat) :
    Action.sleep m ∉ (status env).acts := by
  rcases status_acts_cases env with h | h <;> rw [h] <;> simp

/-- status() never touches console handlers or events. -/
theorem console_not_in_status (env : LockEnv) :
    Action.generateCtrlEvent ∉ (status env).acts ∧
    (∀ b, Action.setCtrlHandler b ∉ (status env).acts) := by
  rcases status_acts_cases env with h | h <;> rw [h] <;> simp

/-- Index shift for bounded existentials over loop iterations. -/
theorem exists_lt_succ_shift (P : Nat → Prop) (i n : Nat) (h0 : ¬P i) :
    (∃ k, k < n + 1 ∧ P (i + k)) ↔ ∃ k, k < n ∧ P (i + 1 + k) := by
  constructor
  · rintro ⟨k, hk, hp⟩
    cases k with
    | zero => exact absurd (by simpa using hp) h0
    | succ j =>
      refine ⟨j, by omega, ?_⟩
      have he : i + (j + 1) = i + 1 + j := by omega
      rwa [he] at hp
  · rintro ⟨k, hk, hp⟩
    refine ⟨k + 1, by omega, ?_⟩
    have he : i + (k + 1) = i + 1 + k := by omega
    rwa [he]

/-- Each iteration of the Windows retry loop adds at most one
GenerateConsoleCtrlEvent to the trace. -/
theorem countGen_winLoop (env : WinStopEnv) :
    ∀ n i err acc, countGen (winLoop env i n err acc).2.2 ≤ countGen acc + n := by
  intro n
  induction n with
  | zero =>
    intro i err acc
    simp [winLoop]
  | succ n ih =>
    intro i err acc
    by_cases hg : env.genOk i
    · by_cases hs : (status (env.loopLock i)).st = .running
      · calc countGen (winLoop env i (n + 1) err acc).2.2 =
            countGen (winLoop env (i + 1) n
              (if (status (env.loopLock i)).err.isSome then
                (status (env.loopLock i)).err else err)
              ((acc ++ [Action.generateCtrlEvent]) ++
                (status (env.loopLock i)).acts ++ [.sleep 500])).2.2 := by
              simp [winLoop, hg, hs]
          _ ≤ _ := by
              refine le_trans (ih _ _ _) ?_
              simp only [countGen_append, countGen_status, countGen_gen,
                countGen_sleep]
              omega
      · calc countGen (winLoop env i (n + 1) err acc).2.2 =
            countGen ((acc ++ [Action.generateCtrlEvent]) ++
              (status (env.loopLock i)).acts) := by
              simp [winLoop, hg, hs]
          _ ≤ _ := by
              simp only [countGen_append, countGen_status, countGen_gen,
                countGen_sleep]
              omega
    · calc countGen (winLoop env i (n + 1) err acc).2.2 =
          countGen (winLoop env (i + 1) n (some (errSendStop (env.genErr i)))
            (acc ++ [Action.generateCtrlEvent])).2.2 := by
            simp [winLoop, hg]
        _ ≤ _ := by
            refine le_trans (ih _ _ _) ?_
            simp only [countGen_append, countGen_gen]
            omega

/-- The Windows retry loop exits with success exactly when some
iteration within its budget both generates the interrupt event and
then observes a status other than Running. -/
theorem winLoop_ok_iff (env : WinStopEnv) :
    ∀ n i err acc, (winLoop env i n err acc).1 = true ↔
      ∃ k, k < n ∧ env.genOk (i + k) = true ∧
        (status (env.loopLock (i + k))).st ≠ .running := by
  intro n
  induction n with
  | zero =>
    intro i err acc
    simp [winLoop]
  | succ n ih =>
    intro i err acc
    by_cases hg : env.genOk i
    · by_cases hs : (status (env.loopLock i)).st = .running
      · have hstep : (winLoop env i (n + 1) err acc).1 =
            (winLoop env (i + 1) n
              (if (status (env.loopLock i)).err.isSome then
                (status (env.loopLock i)).err else err)
              ((acc ++ [Action.generateCtrlEvent]) ++
                (status (env.loopLock i)).acts ++ [.sleep 500])).1 := by
          simp [winLoop, hg, hs]
        rw [hstep, ih]
        have h0 : ¬(env.genOk (i + 0) = true ∧
            (status (env.loopLock (i + 0))).st ≠ .running) := by
          simp [hs]
        exact (exists_lt_succ_shift
          (fun k => env.genOk k = true ∧
            (status (env.loopLock k)).st ≠ .running) i n (by simpa using h0)).symm
      · have hstep : (winLoop env i (n + 1) err acc).1 = true := by
          simp [winLoop, hg, hs]
        rw [hstep]
        simp only [true_iff]
        exact ⟨0, by omega, by simpa using hg, by simpa using hs⟩
    · have hstep : (winLoop env i (n + 1) err acc).1 =
          (winLoop env (i + 1) n (some (errSendStop (env.genErr i)))
            (acc ++ [Action.generateCtrlEvent])).1 := by
        simp [winLoop, hg]
      rw [hstep, ih]
      have h0 : ¬(env.genOk i = true ∧
          (status (env.loopLock i)).st ≠ .running) := by
        simp [hg]
      exact (exists_lt_succ_shift
        (fun k => env.genOk k = true ∧
          (status (env.loopLock k)).st ≠ .running) i n (by simpa using h0)).symm

/-- Every sleep the Windows retry loop adds to the trace is 500 ms. -/
theorem winLoop_sleep (env : WinStopEnv) :
    ∀ n i err acc, (∀ m, Action.sleep m ∈ acc → m = 500) →
      ∀ m, Action.sleep m ∈ (winLoop env i n err acc).2.2 → m = 500 := by
  intro n
  induction n with
  | zero =>
    intro i err acc hacc m
    simpa [winLoop] using hacc m
  | succ n ih =>
    intro i err acc hacc m
    by_cases hg : env.genOk i
    · by_cases hs : (status (env.loopLock i)).st = .running
      · have hstep : (winLoop env i (n + 1) err acc).2.2 =
            (winLoop env (i + 1) n
              (if (status (env.loopLock i)).err.isSome then
                (status (env.loopLock i)).err else err)
              ((acc ++ [Action.generateCtrlEvent]) ++
                (status (env.loopLock i)).acts ++ [.sleep 500])).2.2 := by
          simp [winLoop, hg, hs]
        rw [hstep]
        refine ih _ _ _ (fun m2 hm2 => ?_) m
        simp only [List.mem_append] at hm2
        rcases hm2 with ((hm2 | hm2) | hm2) | hm2
        · exact hacc m2 hm2
        · simp at hm2
        · exact absurd hm2 (sleep_not_in_status _ m2)
        · simpa using hm2
      · have hstep : (winLoop env i (n + 1) err acc).2.2 =
            (acc ++ [Action.generateCtrlEvent]) ++
              (status (env.loopLock i)).acts := by
          simp [winLoop, hg, hs]
        rw [hstep]
        intro hm
        simp only [List.mem_append] at hm
        rcases hm with (hm | hm) | hm
        · exact hacc m hm
        · simp at hm
        · exact absurd hm (sleep_not_in_status _ m)
    · have hstep : (winLoop env i (n + 1) err acc).2.2 =
          (winLoop env (i + 1) n (some (errSendStop (env.genErr i)))
            (acc ++ [Action.generateCtrlEvent])).2.2 := by
        simp [winLoop, hg]
      rw [hstep]
      refine ih _ _ _ (fun m2 hm2 => ?_) m
      simp only [List.mem_append] at hm2
      rcases hm2 with hm2 | hm2
      · exact hacc m2 hm2
      · simp at hm2

/-- When the interrupt event fails on every iteration, the loop adds
exactly one GenerateConsoleCtrlEvent per iteration and never exits
early. -/
theorem countGen_winLoop_genfail (env : WinStopEnv) :
    ∀ n i err acc, (∀ k, k < n → env.genOk (i + k) = false) →
      countGen (winLoop env i n err acc).2.2 = countGen acc + n := by
  intro n
  induction n with
  | zero =>
    intro i err acc hfail
    simp [winLoop]
  | succ n ih =>
    intro i err acc hfail
    have hg : env.genOk i = false := by simpa using hfail 0 (by omega)
    have hstep : (winLoop env i (n + 1) err acc).2.2 =
        (winLoop env (i + 1) n (some (errSendStop (env.genErr i)))
          (acc ++ [Action.generateCtrlEvent])).2.2 := by
      simp [winLoop, hg]
    rw [hstep, ih]
    · simp only [countGen_append, countGen_gen]
      omega
    · intro k hk
      have he : i + 1 + k = i + (k + 1) := by omega
      rw [he]
      exact hfail (k + 1) (by omega)

/-- The pre-loop trace holds no event, no sleep. -/
theorem loopAcc_clean (env : WinStopEnv) (pid : Int) :
    countGen (loopAcc env pid) = 0 ∧
    (∀ m, Action.sleep m ∈ loopAcc env pid → m = 500) := by
  constructor
  · rw [loopAcc, countGen_append, countGen_status]
    rfl
  · intro m hm
    rw [loopAcc, List.mem_append] at hm
    rcases hm with hm | hm
    · exact absurd hm (sleep_not_in_status _ m)
    · simp at hm

/-- With the service not already stopped, the pid resolved, and both
console setup calls succeeding, winStop is the retry loop followed by
the scope-guard cleanup. -/
theorem winStop_reached (env : WinStopEnv) (i : LockInfo)
    (hst : (status env.lockEnv).st ≠ .stopped)
    (hinfo : env.lockInfo = some i) (hpid : i.pid ≠ -1)
    (ha : env.attachOk = true) (hh : env.handlerOk = true) :
    (winStop env).ok =
      (winLoop env 0 10 (status env.lockEnv).err (loopAcc env i.pid)).1 ∧
    (winStop env).err =
      (if (winLoop env 0 10 (status env.lockEnv).err (loopAcc env i.pid)).1 then
        (winLoop env 0 10 (status env.lockEnv).err (loopAcc env i.pid)).2.1
      else some errDidNotStop) ∧
    (winStop env).acts =
      (winLoop env 0 10 (status env.lockEnv).err (loopAcc env i.pid)).2.2 ++
        [Action.setCtrlHandler false, Action.freeConsole] ++
        sg0Acts env.hadConsole := by
  refine ⟨?_, ?_, ?_⟩ <;>
    simp [winStop, hinfo, getPid, hst, hpid, ha, hh, loopAcc]

/-- C4: once the Windows stop path reaches its retry loop, the loop
performs at most 10 GenerateConsoleCtrlEvent attempts, every sleep it
takes is 500 ms, it succeeds exactly when some attempt within the
budget generates the event and then observes a status other than
Running, and when it fails the error is "Service did not stop yet"
and stop() returns false. -/
theorem winStop_retry_bounded (env : WinStopEnv) (i : LockInfo)
    (hst : (status env.lockEnv).st ≠ .stopped)
    (hinfo : env.lockInfo = some i) (hpid : i.pid ≠ -1)
    (ha : env.attachOk = true) (hh : env.handlerOk = true) :
    countGen (winStop env).acts ≤ 10 ∧
    ((winStop env).ok = true ↔
      ∃ k, k < 10 ∧ env.genOk k = true ∧
        (status (env.loopLock k)).st ≠ .running) ∧
    ((winStop env).ok = false → (winStop env).err = some errDidNotStop) ∧
    (∀ m, Action.sleep m ∈ (winStop env).acts → m = 500) := by
  obtain ⟨hok, herr, hacts⟩ := winStop_reached env i hst hinfo hpid ha hh
  refine ⟨?_, ?_, ?_, ?_⟩
  · rw [hacts, countGen_append, countGen_append]
    have h1 := countGen_winLoop env 10 0 (status env.lockEnv).err (loopAcc env i.pid)
    have h2 := (loopAcc_clean env i.pid).1
    have h3 : countGen [Action.setCtrlHandler false, Action.freeConsole] = 0 := rfl
    have h4 : countGen (sg0Acts env.hadConsole) = 0 := by
      cases h : env.hadConsole <;> simp [sg0Acts, countGen, isGen]
    omega
  · rw [hok, winLoop_ok_iff]
    simp
  · intro hf
    rw [hok] at hf
    rw [herr, hf]
    simp
  · intro m hm
    rw [hacts] at hm
    simp only [List.mem_append] at hm
    rcases hm with (hm | hm) | hm
    · exact winLoop_sleep env 10 0 (status env.lockEnv).err (loopAcc env i.pid)
        (loopAcc_clean env i.pid).2 m hm
    · simp at hm
    · cases h : env.hadConsole <;> rw [h] at hm <;> simp [sg0Acts] at hm

/-- C4 witness: attach and handler succeed, the first event succeeds
and the service is then observed stopped, so stop() succeeds within
the budget. -/
theorem winStop_retry_bounded_witness :
    (winStop winEnvEarlyStop).ok = true ∧
    countGen (winStop winEnvEarlyStop).acts ≤ 10 :=
  ⟨(winStop_retry_bounded winEnvEarlyStop ⟨7, "h", "a"⟩ (by decide) rfl
      (by decide) rfl rfl).2.1.mpr ⟨0, by omega, rfl, by decide⟩,
   (winStop_retry_bounded winEnvEarlyStop ⟨7, "h", "a"⟩ (by decide) rfl
      (by decide) rfl rfl).1⟩

/-- C3 counterexample: with the service running, attach and handler
setup succeeding, and GenerateConsoleCtrlEvent failing every time,
stop() does not short-circuit on the failed event: it retries all 10
iterations, and the final error is "Service did not stop yet", not the
captured OS error of the failed event. -/
theorem winStop_genfail_counterexample :
    (winStop winEnvGenFail).ok = false ∧
    countGen (winStop winEnvGenFail).acts = 10 ∧
    (winStop winEnvGenFail).err = some errDidNotStop ∧
    (winStop winEnvGenFail).err ≠ some (errSendStop "event error") := by
  refine ⟨rfl, rfl, rfl, ?_⟩
  decide

/-- C3 (amended): a failed AttachConsole or a failed
SetConsoleCtrlHandler short-circuits to cleanup with its specific
captured OS error and stop() returns false; a failed
GenerateConsoleCtrlEvent sets its captured OS error but does not
short-circuit — the loop keeps retrying, and if every attempt of the
10-iteration budget fails, stop() returns false with the error
"Service did not stop yet". -/
theorem winStop_failure_modes (env : WinStopEnv) (i : LockInfo)
    (hst : (status env.lockEnv).st ≠ .stopped)
    (hinfo : env.lockInfo = some i) (hpid : i.pid ≠ -1) :
    (env.attachOk = false →
      (winStop env).ok = false ∧
      (winStop env).err = some (errAttachConsole env.attachErr) ∧
      Action.generateCtrlEvent ∉ (winStop env).acts ∧
      Action.setCtrlHandler true ∉ (winStop env).acts) ∧
    (env.attachOk = true → env.handlerOk = false →
      (winStop env).ok = false ∧
      (winStop env).err = some (errDisableHandler env.handlerErr) ∧
      Action.generateCtrlEvent ∉ (winStop env).acts) ∧
    (env.attachOk = true → env.handlerOk = true →
      (∀ k, k < 10 → env.genOk k = false) →
      (winStop env).ok = false ∧
      (winStop env).err = some errDidNotStop ∧
      countGen (winStop env).acts = 10) := by
  refine ⟨fun hatt => ?_, fun hatt hh => ?_, fun hatt hh hgen => ?_⟩
  · have hred : winStop env =
        { ok := false
          err := some (errAttachConsole env.attachErr)
          acts := ((status env.lockEnv).acts ++
            [Action.getLockInfo, Action.freeConsole,
              Action.attachConsole i.pid]) ++ sg0Acts env.hadConsole } := by
      simp [winStop, hinfo, getPid, hst, hpid, hatt]
    rw [hred]
    refine ⟨rfl, rfl, ?_, ?_⟩ <;>
    · intro hm
      simp only [List.mem_append] at hm
      rcases hm with hm | hm
      · rcases hm with hm | hm
        · first
          | exact absurd hm (console_not_in_status env.lockEnv).1
          | exact absurd hm ((console_not_in_status env.lockEnv).2 true)
        · simp at hm
      · cases h : env.hadConsole <;> rw [h] at hm <;> simp [sg0Acts] at hm
  · have hred : winStop env =
        { ok := false
          err := some (errDisableHandler env.handlerErr)
          acts := ((status env.lockEnv).acts ++
            [Action.getLockInfo, Action.freeConsole,
              Action.attachConsole i.pid, Action.setCtrlHandler true,
              Action.freeConsole]) ++ sg0Acts env.hadConsole } := by
      simp [winStop, hinfo, getPid, hst, hpid, hatt, hh]
    rw [hred]
    refine ⟨rfl, rfl, ?_⟩
    intro hm
    simp only [List.mem_append] at hm
    rcases hm with hm | hm
    · rcases hm with hm | hm
      · exact absurd hm (console_not_in_status env.lockEnv).1
      · simp at hm
    · cases h : env.hadConsole <;> rw [h] at hm <;> simp [sg0Acts] at hm
  · obtain ⟨hok, herr, hacts⟩ := winStop_reached env i hst hinfo hpid hatt hh
    have hfail : (winLoop env 0 10 (status env.lockEnv).err
        (loopAcc env i.pid)).1 = false := by
      rw [Bool.eq_false_iff]
      intro htrue
      obtain ⟨k, hk, hg, _⟩ := (winLoop_ok_iff env 10 0 _ _).mp htrue
      rw [Nat.zero_add] at hg
      rw [hgen k hk] at hg
      exact Bool.false_ne_true hg
    refine ⟨?_, ?_, ?_⟩
    · rw [hok, hfail]
    · rw [herr, hfail]
      simp
    · rw [hacts, countGen_append, countGen_append]
      have h1 := countGen_winLoop_genfail env 10 0 (status env.lockEnv).err
        (loopAcc env i.pid) (fun k hk => by rw [Nat.zero_add]; exact hgen k hk)
      have h2 := (loopAcc_clean env i.pid).1
      have h3 : countGen [Action.setCtrlHandler false, Action.freeConsole] = 0 := rfl
      have h4 : countGen (sg0Acts env.hadConsole) = 0 := by
        cases h : env.hadConsole <;> simp [sg0Acts, countGen, isGen]
      omega

/-- C3 (amended) witness: a concrete failed AttachConsole. -/
theorem winStop_failure_modes_witness :
    (winStop winEnvAttachFail).ok = false ∧
    (winStop winEnvAttachFail).err = some (errAttachConsole "access denied") := by
  have h := (winStop_failure_modes winEnvAttachFail ⟨42, "host", "app"⟩
    (by decide) rfl (by decide)).1 rfl
  exact ⟨h.1, h.2.1⟩

end QtService
